import Mathlib

/-!
Verification development for the data retrieval & caching orchestration layer
of the ai_stock_analytics repository.

Shallow embedding of:
  - `src/data/db_provider.py`  (DuckDBProvider, persistent store adapter)
  - `src/data/db_manager.py`   (DBManager, connection manager + schema init)
  - `src/data/ingestion.py`    (DataFetcher, fetch orchestrator + batch fetcher)

Modelling conventions:
  - Calendar dates are day numbers (`Nat`); SQL `INTERVAL '1 year'` style
    calendar arithmetic is modelled in whole days.
  - Numeric payloads (prices, scores) are modelled as `Int`; their arithmetic
    is never relevant to the claims, only their identity.
  - A pandas DataFrame of OHLCV rows is a `List Bar` plus an optional
    provenance tag (modelling `df.attrs["source"]`).
  - DuckDB exceptions are `Except Unit`: a query or write raises when the
    backing table is missing (`schemaReady = false`, e.g. a fresh database
    whose schema was never created) or, for writes, when the session is
    read-only.  A Python `try/except` around an operation appears as a
    `match` that maps `.error` to the handler's behaviour.
-/

/-- One OHLCV row as returned by the single-symbol query
(`SELECT date, open, high, low, close, volume`). -/
structure Bar where
  date : Nat
  op : Int
  hi : Int
  lo : Int
  cl : Int
  vol : Int
deriving DecidableEq, Repr

/-- One row of `fact_market_data` (the batch query selects `*`, including the
ticker column). -/
structure MarketRow where
  ticker : String
  date : Nat
  op : Int
  hi : Int
  lo : Int
  cl : Int
  vol : Int
deriving DecidableEq, Repr

/-- One row of `dim_assets`.  SQL NULLs in the text columns are modelled as
`""`; the optional columns keep `Option`. -/
structure AssetRow where
  ticker : String
  name : String
  sector : String
  industry : String
  description : Option String
  retrieval_origin : Option String
deriving DecidableEq, Repr

/-- One row of `fact_news`. -/
structure NewsRow where
  news_id : String
  ticker : String
  title : String
  publisher : String
  link : String
  publish_time : Int
  sentiment_score : Int
deriving DecidableEq, Repr

/-- One row of `fact_fundamentals`. -/
structure FundRow where
  ticker : String
  date : Nat
  pe : Int
  market_cap : Int
  eps : Int
deriving DecidableEq, Repr

/-- One row of `fact_alt_data`. -/
structure AltRow where
  ticker : String
  date : Nat
  sentiment_score : Int
  web_attention : Int
deriving DecidableEq, Repr

/-- The state of the local DuckDB store as seen through one session.
`schemaReady = false` models a database whose tables were never created
(every query on them raises); `readOnly` is the effective session mode
(writes on a read-only session raise). -/
structure Store where
  schemaReady : Bool
  readOnly : Bool
  market : List MarketRow
  assets : List AssetRow
  news : List NewsRow
  funds : List FundRow
  alt : List AltRow
deriving DecidableEq, Repr

/-- News item as handed to `save_news` (provider wire format). -/
structure NewsItem where
  title : String
  publisher : String
  link : String
  providerPublishTime : Int
  sentiment_score : Int
deriving DecidableEq, Repr

/-- Window length in days used by the effective `DuckDBProvider.fetch_ohlcv`
(`period_map`): `"max"` maps to `'50 years'`; unknown labels default to
`'1 year'`.  Calendar intervals are modelled in days. -/
def periodDays (p : String) : Nat :=
  if p = "1mo" then 30
  else if p = "3mo" then 90
  else if p = "6mo" then 180
  else if p = "1y" then 365
  else if p = "2y" then 730
  else if p = "5y" then 1825
  else if p = "max" then 18250
  else 365

/-- `days_map` of `DuckDBProvider.fetch_batch_ohlcv` (default 730). -/
def batchDays (p : String) : Nat :=
  if p = "1d" then 1
  else if p = "5d" then 5
  else if p = "1mo" then 30
  else if p = "3mo" then 90
  else if p = "6mo" then 180
  else if p = "1y" then 365
  else if p = "2y" then 730
  else if p = "5y" then 1825
  else if p = "10y" then 3650
  else if p = "max" then 20000
  else 730

/-- Rows of `fact_market_data` for one ticker (`WHERE ticker = ?`). -/
def subRows (st : Store) (t : String) : List MarketRow :=
  st.market.filter (fun r => r.ticker == t)

/-- `MAX(date)` over a row list; 0 on the empty list (the empty case is always
guarded by an emptiness check at use sites, matching SQL NULL semantics). -/
def maxD (rs : List MarketRow) : Nat :=
  rs.foldr (fun r acc => max r.date acc) 0

/-- `ORDER BY date ASC`. -/
def sortByDate (l : List MarketRow) : List MarketRow :=
  List.insertionSort (fun a b => a.date ≤ b.date) l

/-- Projection dropping the ticker column (the single-symbol query selects
`date, open, high, low, close, volume`). -/
def toBar (r : MarketRow) : Bar :=
  ⟨r.date, r.op, r.hi, r.lo, r.cl, r.vol⟩

/-- Attaching the ticker column back (as `save_ohlcv` does on insert). -/
def toRow (t : String) (b : Bar) : MarketRow :=
  ⟨t, b.date, b.op, b.hi, b.lo, b.cl, b.vol⟩

/-- Result rows of the effective single-symbol store query
(`db_provider.py`, second `fetch_ohlcv` definition, lines 292-318):
`WHERE ticker = ? AND date >= (SELECT MAX(date) - INTERVAL ... WHERE ticker = ?)
ORDER BY date ASC`.  When the ticker has no rows the subquery is NULL and the
result is empty, which the filter over an empty list reproduces. -/
def storeWindowRows (st : Store) (t p : String) : List Bar :=
  let sub := subRows st t
  (sortByDate (sub.filter (fun r => decide (maxD sub ≤ r.date + periodDays p)))).map toBar

/-- `DuckDBProvider.fetch_ohlcv` (the second, effective definition).  Its body
has `try/finally` but no `except`: a DB error (missing table) propagates. -/
def DuckDBProvider.fetch_ohlcv (st : Store) (t p : String) : Except Unit (List Bar) :=
  if st.schemaReady then .ok (storeWindowRows st t p) else .error ()

/-- `DuckDBProvider.get_latest_date`: `SELECT MAX(date) ... WHERE ticker=?`;
returns `None` both when no row exists and when the query errors (this method
catches its exceptions and returns `None`). -/
def DuckDBProvider.get_latest_date (st : Store) (t : String) : Option Nat :=
  if st.schemaReady then
    if (subRows st t).isEmpty then none else some (maxD (subRows st t))
  else none

/-- `DuckDBProvider.add_asset` (db_provider.py lines 332-358).  The body is
`try/finally` with NO `except` clause: a write failure (read-only session,
missing table) raises to the caller.  On success: optional metadata `UPDATE`
followed by `INSERT OR IGNORE` with `name or ticker` / `sector or "Unknown"` /
`industry or "Unknown"`. -/
def DuckDBProvider.add_asset (st : Store) (ticker name sector industry : String) :
    Except Unit Store :=
  if st.readOnly || !st.schemaReady then .error () else
  let upd : List AssetRow :=
    if name ≠ "" ∨ sector ≠ "" ∨ industry ≠ "" then
      st.assets.map (fun a =>
        if a.ticker == ticker then
          { a with
            name := if name ≠ "" then name else a.name
            sector := if sector ≠ "" then sector else a.sector
            industry := if industry ≠ "" then industry else a.industry }
        else a)
    else st.assets
  let ins : List AssetRow :=
    if upd.any (fun a => a.ticker == ticker) then upd
    else upd ++ [⟨ticker, (if name = "" then ticker else name),
                 (if sector = "" then "Unknown" else sector),
                 (if industry = "" then "Unknown" else industry), none, none⟩]
  .ok { st with assets := ins }

/-- `INSERT OR REPLACE` of one bar into `fact_market_data`, which has
`PRIMARY KEY (ticker, date)`: the conflicting row is replaced. -/
def upsertMarket (tbl : List MarketRow) (r : MarketRow) : List MarketRow :=
  tbl.filter (fun x => !(x.ticker == r.ticker && x.date == r.date)) ++ [r]

/-- `DuckDBProvider.save_ohlcv`: early-return on an empty frame, then
`add_asset` followed by a bulk `INSERT OR REPLACE`, all inside `try/except`
(any failure is logged and the store is left unchanged). -/
def DuckDBProvider.save_ohlcv (st : Store) (t : String) (df : List Bar) : Store :=
  if df.isEmpty then st else
  match DuckDBProvider.add_asset st t "" "" "" with
  | .error _ => st
  | .ok st1 =>
      { st1 with market := df.foldl (fun tbl b => upsertMarket tbl (toRow t b)) st1.market }

/-- News id: `md5(f"{ticker}_{link}_{title}")`.  The hash is modelled by its
(injective stand-in) preimage text. -/
def newsId (ticker link title : String) : String :=
  ticker ++ "_" ++ link ++ "_" ++ title

/-- `DuckDBProvider.save_news`: early-return on empty, `add_asset`, then
`INSERT OR IGNORE` per item keyed by `news_id`; all inside `try/except`. -/
def DuckDBProvider.save_news (st : Store) (ticker : String) (items : List NewsItem) : Store :=
  if items.isEmpty then st else
  match DuckDBProvider.add_asset st ticker "" "" "" with
  | .error _ => st
  | .ok st1 =>
      { st1 with news := items.foldl (fun tbl it =>
          let nid := newsId ticker it.link it.title
          if tbl.any (fun n => n.news_id == nid) then tbl
          else tbl ++ [⟨nid, ticker, it.title, it.publisher, it.link,
                        it.providerPublishTime, it.sentiment_score⟩]) st1.news }

/-- `DuckDBProvider.save_fundamentals`: `add_asset` then `INSERT OR IGNORE`
keyed by `(ticker, today)`; all inside `try/except`. -/
def DuckDBProvider.save_fundamentals (st : Store) (ticker : String) (today : Nat)
    (pe mcap eps : Int) : Store :=
  match DuckDBProvider.add_asset st ticker "" "" "" with
  | .error _ => st
  | .ok st1 =>
      if st1.funds.any (fun f => f.ticker == ticker && f.date == today) then st1
      else { st1 with funds := st1.funds ++ [⟨ticker, today, pe, mcap, eps⟩] }

/-- `DuckDBProvider.save_alt_data`: `add_asset` then `INSERT OR REPLACE`
keyed by `(ticker, date)`; all inside `try/except`. -/
def DuckDBProvider.save_alt_data (st : Store) (ticker : String) (d : Nat)
    (sent att : Int) : Store :=
  match DuckDBProvider.add_asset st ticker "" "" "" with
  | .error _ => st
  | .ok st1 =>
      { st1 with alt := st1.alt.filter (fun a => !(a.ticker == ticker && a.date == d))
                          ++ [⟨ticker, d, sent, att⟩] }

/-- `DBManager.update_asset_origin`: read current origin, merge the new tag
into the comma-joined sorted set, minimal `INSERT OR IGNORE` then `UPDATE`;
the whole body is inside `try/except` (a write failure is logged and
swallowed, leaving the store unchanged). -/
def DBManager.update_asset_origin (st : Store) (ticker origin : String) : Store :=
  if st.readOnly || !st.schemaReady then st else
  let current : Option String :=
    (st.assets.find? (fun a => a.ticker == ticker)).bind (fun a => a.retrieval_origin)
  let new_origin : String :=
    match current with
    | some cur =>
        String.intercalate ","
          (List.insertionSort (fun a b : String => a ≤ b) ((origin :: cur.splitOn ",").eraseDups))
    | none => origin
  let withRow : List AssetRow :=
    if st.assets.any (fun a => a.ticker == ticker) then st.assets
    else st.assets ++ [⟨ticker, "", "", "", none, none⟩]
  { st with assets := withRow.map (fun a =>
      if a.ticker == ticker then { a with retrieval_origin := some new_origin } else a) }

/-- Text of the batch query built by `DuckDBProvider.fetch_batch_ohlcv`:
`", ".join([f"'{t}'" for t in tickers])` spliced into the `IN (...)` clause.
Whitespace of the triple-quoted source string is normalised to single
spaces. -/
def sqch : String := String.singleton (Char.ofNat 39)

def DuckDBProvider.batchQueryText (tickers : List String) : String :=
  let ticker_list_str := String.intercalate ", " (tickers.map (fun t => sqch ++ t ++ sqch))
  "SELECT * FROM fact_market_data WHERE ticker IN (" ++ ticker_list_str
    ++ ") ORDER BY ticker, date ASC"

/-- Modelled from the spec (§4.7): the validator the spec requires for
symbols interpolated into the batch `IN (...)` clause — "alphanumeric +
limited punctuation".  Present for comparison with the source, which
performs no validation at all. -/
def specValidSymbol (s : String) : Bool :=
  s.toList.all (fun c => c.isAlphanum || c = '.' || c = '-' || c = '_')

/-- `DuckDBProvider.fetch_batch_ohlcv` (db_provider.py lines 360-409):
one `SELECT * ... WHERE ticker IN (...) ORDER BY ticker, date ASC`, split per
ticker; tickers with no rows are absent from the result.  `start_date` is
computed from `days_map` but never used in the query (as in the source).
The whole body is inside `try/except`: any DB error yields the empty map. -/
def DuckDBProvider.fetch_batch_ohlcv (st : Store) (tickers : List String) (p : String)
    (now : Nat) : List (String × List MarketRow) :=
  if tickers.isEmpty then [] else
  let _start_date := now - batchDays p
  if !st.schemaReady then []
  else tickers.filterMap (fun t =>
    if (sortByDate (subRows st t)).isEmpty then none else some (t, sortByDate (subRows st t)))

/-!
`DBManager` (db_manager.py): process-wide singleton connection, lock-contention
downgrade, and schema bootstrap.  The class-level globals
`_SHARED_CONNECTION` / `_CONNECTION_READ_ONLY` / `_SCHEMA_INITIALIZED` are a
`DBManagerState`; the environment knob `locked` says whether another process
holds the write lock (so that `duckdb.connect(read_only=False)` raises
`duckdb.IOException`; opening read-only is modelled as always succeeding, so
the re-raise branch for a failed read-only open is unreachable here).
-/

/-- The class-level globals of `DBManager`. `shared = some ro` is an open
shared connection whose mode is `ro`. -/
structure DBManagerState where
  shared : Option Bool
  connectionReadOnly : Bool
  schemaFlagSet : Bool
deriving DecidableEq, Repr

/-- Outcome of `DBManager.get_connection`: the cursor mode handed back (a
cursor of the shared connection), the instance `read_only` field after the
call (the downgrade mutates it), the new globals, and the warnings printed. -/
structure ConnOut where
  cursor : Bool
  selfReadOnly : Bool
  g : DBManagerState
  log : List String
deriving DecidableEq, Repr

/-- `DBManager.get_connection` (db_manager.py lines 32-64). -/
def DBManager.get_connection (locked selfRO : Bool) (g : DBManagerState) : ConnOut :=
  -- 1. upgrade check: have RO but need RW -> close and reopen
  let g1 := if g.shared.isSome && !selfRO && g.connectionReadOnly then
      { g with shared := none } else g
  -- 2. establish connection if none
  match g1.shared with
  | some ro => ⟨ro, selfRO, g1, []⟩
  | none =>
      if !selfRO then
        if locked then
          -- RW connect raised IOException: fall back to read-only,
          -- record the effective mode on the instance, warn
          ⟨true, true,
            { g1 with shared := some true, connectionReadOnly := true },
            ["⚠️ DB Locked. Falling back to Read-Only Mode."]⟩
        else
          ⟨false, false, { g1 with shared := some false, connectionReadOnly := false }, []⟩
      else
        ⟨true, true, { g1 with shared := some true, connectionReadOnly := true }, []⟩

/-- The schema as the DDL of `DBManager.initialize_db` sees it: which tables
exist, plus the two evolutionary columns targeted by `ALTER TABLE ADD
COLUMN` (whose "column exists" failure is swallowed). -/
structure Schema where
  tables : List String
  assetsHasOrigin : Bool
  competitorsHasCreatedAt : Bool
deriving DecidableEq, Repr

/-- `CREATE TABLE IF NOT EXISTS`. -/
def ensureTable (ts : List String) (n : String) : List String :=
  if n ∈ ts then ts else ts ++ [n]

/-- The table list created by `DBManager.initialize_db`, in source order. -/
def schemaTables : List String :=
  ["dim_assets", "dim_competitors", "fact_market_data", "fact_fundamentals",
   "fact_alt_data", "fact_ai_reports", "fact_news", "fact_user_interactions",
   "dim_portfolios", "fact_holdings"]

/-- The pure schema effect of a successful `DBManager.initialize_db` run:
each table created only if absent, each additive `ALTER` applied with a
swallowed "column exists" failure (the `UPDATE ... WHERE created_at IS NULL`
backfill has no schema effect). -/
def applyDDL (sc : Schema) : Schema :=
  { tables := schemaTables.foldl ensureTable sc.tables
    assetsHasOrigin := true
    competitorsHasCreatedAt := true }

/-- `DBManager.initialize_db` (named `init_db` here): obtains a cursor via
`get_connection` and runs the DDL.  There is no `except` in its body: if the
cursor is read-only (e.g. after a lock-contention downgrade) the first
`CREATE TABLE` raises and the error propagates to the caller. -/
def DBManager.init_db (locked selfRO : Bool) (g : DBManagerState) (sc : Schema) :
    Except Unit Schema × DBManagerState × Bool × List String :=
  let c := DBManager.get_connection locked selfRO g
  if c.cursor then (.error (), c.g, c.selfReadOnly, c.log)
  else (.ok (applyDDL sc), c.g, c.selfReadOnly, c.log)

/-- Outcome of constructing a `DBManager`. -/
structure MkOut where
  g : DBManagerState
  schema : Schema
  selfReadOnly : Bool
  log : List String
deriving DecidableEq, Repr

/-- `DBManager.__init__` (db_manager.py lines 19-30): attempts schema
initialization only when not read-only and the process-level flag is not yet
set; a failure is caught, a soft warning printed, and the flag left unset. -/
def DBManager.mk (readOnly locked : Bool) (g : DBManagerState) (sc : Schema) : MkOut :=
  if !readOnly && !g.schemaFlagSet then
    match DBManager.init_db locked readOnly g sc with
    | (.ok sc2, g2, ro2, lg) => ⟨{ g2 with schemaFlagSet := true }, sc2, ro2, lg⟩
    | (.error _, g2, ro2, lg) =>
        ⟨g2, sc, ro2, lg ++ ["⚠️ DB Schema Init Skipped (Persistence Check)"]⟩
  else ⟨g, sc, readOnly, []⟩

/-!
`DataFetcher` (ingestion.py): the fetch orchestrator.  `Config.DATA_STRATEGY`
is the `Strategy`; `Config.USE_SYNTHETIC_DB` is `db.isSome`.  The live
provider chain is `liveFetch` (AlphaVantage when credentials are configured,
else YFinance — `liveIsAV` records which) plus the ad-hoc `YFinanceProvider()`
fallback `yfFetch`.  Provider invocations are counted in `calls`; a provider
raising is `.error`.  The legacy file cache is `fileCache t p = some rows`
when a cache file for `(t, p)` exists with today's mtime (the freshness test
is folded into the lookup); writing the parquet file has no modelled effect.
-/

inductive Strategy
  | LIVE
  | PRODUCTION
  | SYNTHETIC
  | LEGACY
deriving DecidableEq, Repr

/-- A returned DataFrame: rows plus `df.attrs["source"]`. -/
structure TaggedTable where
  rows : List Bar
  tag : Option String
deriving DecidableEq, Repr

def emptyDF : TaggedTable := ⟨[], none⟩

structure Fetcher where
  strategy : Strategy
  db : Option Store
  date_cache : List (String × Nat)
  liveIsAV : Bool
  liveFetch : String → String → Except Unit (List Bar)
  yfFetch : String → String → Except Unit (List Bar)
  fileCache : String → String → Option (List Bar)

/-- Outcome of one `fetch_ohlcv` call: the result (or the exception that
propagated to the caller), the number of external provider invocations, and
the store afterwards. -/
structure ROut where
  res : Except Unit TaggedTable
  calls : Nat
  db : Option Store
deriving Repr

/-- `"🟠 CACHE (DB)"`, the store-served tag; PRODUCTION trusts the DB as real
history and tags it `"live"` instead. -/
def cacheTag (isProd : Bool) : String :=
  if isProd then "live" else "🟠 CACHE (DB)"

/-- Smart-cache step 0 of the LIVE/PRODUCTION path (ingestion.py lines 65-95).
Returns the DataFrame to serve from the store, or `none` to fall through —
including when the store raised, since the whole block is inside
`try/except`.  The in-memory `date_cache` memo is consulted before
`get_latest_date`. -/
def smartCheck (F : Fetcher) (st : Store) (isProd : Bool) (ticker period : String)
    (today : Nat) : Option TaggedTable :=
  let latest : Option Nat :=
    match F.date_cache.lookup ticker with
    | some d => some d
    | none => DuckDBProvider.get_latest_date st ticker
  match latest with
  | none => none
  | some d =>
      -- is_fresh: latest_date >= today - timedelta(days=1)
      if today ≤ d + 1 then
        match DuckDBProvider.fetch_ohlcv st ticker period with
        | .error _ => none
        | .ok rows => if rows.isEmpty then none else some ⟨rows, some (cacheTag isProd)⟩
      else none

/-- Step 1 of the LIVE/SYNTHETIC paths: `live_provider.fetch_ohlcv`, and when
that returns empty and the live provider is AlphaVantage, a fresh
`YFinanceProvider().fetch_ohlcv`.  Returns the rows (or the exception, which
every caller catches) and the number of provider invocations. -/
def liveTry (F : Fetcher) (ticker period : String) : Except Unit (List Bar) × Nat :=
  match F.liveFetch ticker period with
  | .error e => (.error e, 1)
  | .ok rows =>
      if rows.isEmpty && F.liveIsAV then
        match F.yfFetch ticker period with
        | .error e => (.error e, 2)
        | .ok rows2 => (.ok rows2, 2)
      else (.ok rows, 1)

/-- Step 2 of the LIVE/PRODUCTION path (ingestion.py lines 123-134): fall back
to the store.  `db.fetch_ohlcv` is NOT wrapped in try/except here: a store
error propagates to the caller. -/
def fallbackDB (db : Option Store) (isProd : Bool) (ticker period : String) (n : Nat) :
    ROut :=
  match db with
  | some st =>
      match DuckDBProvider.fetch_ohlcv st ticker period with
      | .error e => ⟨.error e, n, db⟩
      | .ok rows =>
          if rows.isEmpty then ⟨.ok emptyDF, n, db⟩
          else ⟨.ok ⟨rows, some (cacheTag isProd)⟩, n, db⟩
  | none => ⟨.ok emptyDF, n, db⟩

/-- The LIVE / PRODUCTION strategy of `DataFetcher.fetch_ohlcv`
(ingestion.py lines 62-134). -/
def livePath (F : Fetcher) (isProd : Bool) (ticker period : String) (today : Nat) : ROut :=
  match (match F.db with
         | some st => smartCheck F st isProd ticker period today
         | none => none) with
  | some df => ⟨.ok df, 0, F.db⟩
  | none =>
      if ticker = "$MARKET" then
        match F.db with
        | some st =>
            -- not wrapped in try/except: a store error propagates
            match DuckDBProvider.fetch_ohlcv st ticker period with
            | .error e => ⟨.error e, 0, F.db⟩
            | .ok rows =>
                if rows.isEmpty then ⟨.ok emptyDF, 0, F.db⟩
                else ⟨.ok ⟨rows, some "🟠 CACHE (DB)"⟩, 0, F.db⟩
        | none => ⟨.ok emptyDF, 0, F.db⟩
      else
        match liveTry F ticker period with
        | (.ok rows, n) =>
            if !rows.isEmpty then
              ⟨.ok ⟨rows, some "🟢 LIVE"⟩, n,
               F.db.map (fun st => DuckDBProvider.save_ohlcv st ticker rows)⟩
            else fallbackDB F.db isProd ticker period n
        | (.error _, n) => fallbackDB F.db isProd ticker period n

/-- The SYNTHETIC (prefer-store) strategy (ingestion.py lines 137-159).
Step 1 (`db.fetch_ohlcv`) is NOT wrapped in try/except: a store error
propagates.  Step 2 is wrapped; note that live rows obtained with no store
configured are dropped and the empty frame returned, as in the source. -/
def synthPath (F : Fetcher) (ticker period : String) : ROut :=
  let step2 : ROut :=
    match liveTry F ticker period with
    | (.error _, n) => ⟨.ok emptyDF, n, F.db⟩
    | (.ok rows, n) =>
        match F.db with
        | some st =>
            if !rows.isEmpty then
              ⟨.ok ⟨rows, some "🟢 LIVE"⟩, n, some (DuckDBProvider.save_ohlcv st ticker rows)⟩
            else ⟨.ok emptyDF, n, F.db⟩
        | none => ⟨.ok emptyDF, n, F.db⟩
  match F.db with
  | some st =>
      match DuckDBProvider.fetch_ohlcv st ticker period with
      | .error e => ⟨.error e, 0, F.db⟩
      | .ok rows =>
          if !rows.isEmpty then ⟨.ok ⟨rows, some "🟠 CACHE (DB)"⟩, 0, F.db⟩
          else step2
  | none => step2

/-- The LEGACY (file-cache) strategy (ingestion.py lines 161-212).  In this
branch `self.provider` is the live provider; the YFinance runtime fallback
fires when the primary is not already YFinance. -/
def legacyPath (F : Fetcher) (ticker period : String) (use_cache : Bool) : ROut :=
  match (if use_cache then F.fileCache ticker period else none) with
  | some rows => ⟨.ok ⟨rows, some "🟡 CACHE (File)"⟩, 0, F.db⟩
  | none =>
      let df0 : List Bar := match F.liveFetch ticker period with
        | .error _ => []
        | .ok r => r
      let step : List Bar × Nat :=
        if df0.isEmpty && F.liveIsAV then
          (match F.yfFetch ticker period with
           | .error _ => []
           | .ok r => r, 2)
        else (df0, 1)
      if step.1.isEmpty then ⟨.ok emptyDF, step.2, F.db⟩
      else ⟨.ok ⟨step.1, some "🟢 LIVE"⟩, step.2, F.db⟩

/-- `DataFetcher.fetch_ohlcv` (the effective second definition,
ingestion.py lines 57-212): the per-strategy orchestrator. -/
def DataFetcher.fetch_ohlcv (F : Fetcher) (ticker period : String)
    (use_cache : Bool) (today : Nat) : ROut :=
  match F.strategy with
  | .LIVE => livePath F false ticker period today
  | .PRODUCTION => livePath F true ticker period today
  | .SYNTHETIC => synthPath F ticker period
  | .LEGACY => legacyPath F ticker period use_cache

/-- The sequential fallback loop of `DataFetcher.fetch_batch_ohlcv`: each
missing ticker is routed through the single-symbol `fetch_ohlcv`, threading
the store; an exception from any single fetch propagates out of the batch. -/
def batchFill (period : String) (today : Nat) :
    Fetcher → List String → List (String × TaggedTable) → Nat →
    Except Unit (List (String × TaggedTable) × Fetcher × Nat)
  | F, [], acc, n => .ok (acc, F, n)
  | F, t :: ts, acc, n =>
      let r := DataFetcher.fetch_ohlcv F t period true today
      match r.res with
      | .error e => .error e
      | .ok df => batchFill period today { F with db := r.db } ts (acc ++ [(t, df)]) (n + r.calls)

/-- `DataFetcher.fetch_batch_ohlcv` (ingestion.py lines 214-237): one batch
store query, each returned frame tagged `"🟠 CACHE (DB Batch)"`, then the
missing tickers filled sequentially through the single-symbol path. -/
def DataFetcher.fetch_batch_ohlcv (F : Fetcher) (tickers : List String) (period : String)
    (today : Nat) : Except Unit (List (String × TaggedTable) × Fetcher × Nat) :=
  let results : List (String × TaggedTable) :=
    match F.db with
    | some st =>
        (DuckDBProvider.fetch_batch_ohlcv st tickers period today).map
          (fun e => (e.1, ⟨e.2.map toBar, some "🟠 CACHE (DB Batch)"⟩))
    | none => []
  let missing := tickers.filter (fun t => !results.any (fun e => e.1 == t))
  batchFill period today F missing results 0

/-!
Concrete instances used by the theorems below. Providers are plain functions;
`.ok []` is a provider that answers with an empty frame.
-/

/-- A store whose latest date for "A" is day 100. -/
def st1c : Store := ⟨true, false, [⟨"A", 100, 1, 1, 1, 1, 1⟩], [], [], [], []⟩

/-- Prefer-live fetcher whose in-memory date memo holds a stale entry (day 90)
for "A" although the store already holds day 100. -/
def F1c : Fetcher :=
  ⟨.LIVE, some st1c, [("A", 90)], false,
   fun _ _ => .ok [⟨100, 2, 2, 2, 2, 2⟩], fun _ _ => .ok [], fun _ _ => none⟩

/-- Prefer-live fetcher with an empty (hence consistent) memo. -/
def F1w : Fetcher :=
  ⟨.LIVE, some st1c, [], false,
   fun _ _ => .ok [], fun _ _ => .ok [], fun _ _ => none⟩

/-- A store holding two "A" bars 900 days apart (history longer than a 2y
window). -/
def st2c : Store :=
  ⟨true, false, [⟨"A", 100, 1, 1, 1, 1, 1⟩, ⟨"A", 1000, 3, 3, 3, 3, 3⟩], [], [], [], []⟩

/-- Prefer-store fetcher over `st2c`. -/
def F2c : Fetcher :=
  ⟨.SYNTHETIC, some st2c, [], false,
   fun _ _ => .ok [], fun _ _ => .ok [], fun _ _ => none⟩

/-- A store holding one "A" bar; "B" is absent. -/
def st2w : Store := ⟨true, false, [⟨"A", 100, 1, 1, 1, 1, 1⟩], [], [], [], []⟩

/-- Prefer-store fetcher over `st2w`. -/
def F2w : Fetcher :=
  ⟨.SYNTHETIC, some st2w, [], false,
   fun _ _ => .ok [], fun _ _ => .ok [], fun _ _ => none⟩

/-- A store session on a database whose schema was never created (for example
a fresh file opened read-only, so nothing could create it): every query on
`fact_market_data` raises. -/
def st3 : Store := ⟨false, true, [], [], [], [], []⟩

/-- Prefer-store fetcher over the schemaless store. -/
def F3 : Fetcher :=
  ⟨.SYNTHETIC, some st3, [], false,
   fun _ _ => .ok [], fun _ _ => .ok [], fun _ _ => none⟩

/-- A store whose only "A" bar is ten days old (stale but present). -/
def st5c : Store := ⟨true, false, [⟨"A", 90, 1, 1, 1, 1, 1⟩], [], [], [], []⟩

/-- Prefer-live fetcher over `st5c` whose provider answers with one bar. -/
def F5c : Fetcher :=
  ⟨.LIVE, some st5c, [], false,
   fun _ _ => .ok [⟨100, 2, 2, 2, 2, 2⟩], fun _ _ => .ok [], fun _ _ => none⟩

/-- Prefer-store fetcher over `st5c`. -/
def F5w : Fetcher :=
  ⟨.SYNTHETIC, some st5c, [], false,
   fun _ _ => .ok [], fun _ _ => .ok [], fun _ _ => none⟩

/-- A read-only session on an initialized database. -/
def st8 : Store := ⟨true, true, [], [], [], [], []⟩

/-- A symbol that fails the spec validator and carries a SQL-injection
payload (built with the quote character, `Char.ofNat 39`). -/
def injSym : String := "X" ++ sqch ++ "); DROP TABLE fact_market_data; --"

/-- A writable store used by the upsert round-trip witness. -/
def st6w : Store := ⟨true, false, [⟨"A", 50, 9, 9, 9, 9, 9⟩], [], [], [], []⟩

/-- A store whose "A" history ended long ago (latest bar at day 1000, one
older bar inside the year before it, one outside). -/
def st10w : Store :=
  ⟨true, false,
   [⟨"A", 1000, 1, 1, 1, 1, 1⟩, ⟨"A", 900, 2, 2, 2, 2, 2⟩, ⟨"A", 100, 3, 3, 3, 3, 3⟩],
   [], [], [], []⟩

/-!
Helper lemmas.
-/

theorem isEmpty_false_of_ne_nil {α : Type} {l : List α} (h : l ≠ []) : l.isEmpty = false := by
  cases l with
  | nil => exact absurd rfl h
  | cons a t => rfl

theorem maxD_mem (rs : List MarketRow) (h : rs ≠ []) : ∃ r ∈ rs, r.date = maxD rs := by
  induction rs with
  | nil => exact absurd rfl h
  | cons r tl ih =>
      cases tl with
      | nil => exact ⟨r, List.mem_singleton_self r, by simp [maxD]⟩
      | cons s tl2 =>
          obtain ⟨r2, hmem, hdate⟩ := ih (by simp)
          rcases Nat.le_total (maxD (s :: tl2)) r.date with hle | hle
          · exact ⟨r, List.mem_cons_self _ _, by simp [maxD] at hle ⊢; omega⟩
          · refine ⟨r2, List.mem_cons_of_mem _ hmem, ?_⟩
            simp [maxD] at hle hdate ⊢
            omega

theorem sortByDate_eq_nil_iff (l : List MarketRow) : sortByDate l = [] ↔ l = [] := by
  constructor
  · intro h
    have hp := List.perm_insertionSort (fun a b : MarketRow => a.date ≤ b.date) l
    rw [sortByDate] at h
    rw [h] at hp
    exact hp.symm.eq_nil
  · intro h; rw [h]; rfl

theorem storeWindowRows_ne_nil (st : Store) (t p : String) (h : subRows st t ≠ []) :
    storeWindowRows st t p ≠ [] := by
  obtain ⟨r, hmem, hdate⟩ := maxD_mem (subRows st t) h
  have hfil : r ∈ (subRows st t).filter
      (fun r => decide (maxD (subRows st t) ≤ r.date + periodDays p)) := by
    refine List.mem_filter.mpr ⟨hmem, ?_⟩
    simp [hdate ▸ Nat.le_add_right (maxD (subRows st t)) (periodDays p), hdate]
  have hsort : r ∈ sortByDate ((subRows st t).filter
      (fun r => decide (maxD (subRows st t) ≤ r.date + periodDays p))) := by
    rw [sortByDate]
    exact (List.perm_insertionSort _ _).mem_iff.mpr hfil
  exact List.ne_nil_of_mem (List.mem_map_of_mem toBar hsort)

theorem get_latest_date_some (st : Store) (t : String) (d : Nat)
    (h : DuckDBProvider.get_latest_date st t = some d) :
    st.schemaReady = true ∧ subRows st t ≠ [] ∧ d = maxD (subRows st t) := by
  by_cases hr : st.schemaReady
  · refine ⟨hr, ?_⟩
    rw [DuckDBProvider.get_latest_date, if_pos hr] at h
    by_cases he : (subRows st t).isEmpty
    · rw [if_pos he] at h; exact absurd h (by simp)
    · rw [if_neg he] at h
      refine ⟨fun hnil => he (by rw [hnil]; rfl), ?_⟩
      exact (Option.some_inj.mp h).symm
  · rw [DuckDBProvider.get_latest_date, if_neg hr] at h
    exact absurd h (by simp)

theorem lookup_append_some {α β : Type} [BEq α] (l1 l2 : List (α × β)) (a : α) (v : β)
    (h : l1.lookup a = some v) : (l1 ++ l2).lookup a = some v := by
  induction l1 with
  | nil => simp [List.lookup] at h
  | cons e tl ih =>
      rw [List.cons_append]
      cases he : (a == e.1) with
      | true => simpa [List.lookup, he] using h
      | false =>
          rw [List.lookup] at h
          rw [List.lookup]
          simp only [he] at h ⊢
          exact ih h

theorem lookup_map_value {α β γ : Type} [BEq α] (l : List (α × β)) (f : β → γ) (a : α) :
    (l.map (fun e => (e.1, f e.2))).lookup a = (l.lookup a).map f := by
  induction l with
  | nil => rfl
  | cons e tl ih =>
      cases he : (a == e.1) with
      | true => simp [List.lookup, he]
      | false => simpa [List.lookup, he] using ih

theorem lookup_batch_present (st : Store) (tickers : List String) (s : String)
    (hmem : s ∈ tickers) (hne : subRows st s ≠ []) :
    (tickers.filterMap (fun t =>
        if (sortByDate (subRows st t)).isEmpty then none
        else some (t, sortByDate (subRows st t)))).lookup s
      = some (sortByDate (subRows st s)) := by
  induction tickers with
  | nil => exact absurd hmem (List.not_mem_nil s)
  | cons t tl ih =>
      by_cases hts : t = s
      · subst hts
        have hnil : sortByDate (subRows st t) ≠ [] :=
          fun h0 => hne ((sortByDate_eq_nil_iff _).mp h0)
        simp [List.filterMap_cons, isEmpty_false_of_ne_nil hnil, hnil, List.lookup]
      · rcases List.mem_cons.mp hmem with h | h
        · exact absurd h.symm hts
        · have hst : (s == t) = false := by
            cases h2 : s == t with
            | true => exact absurd (eq_of_beq h2).symm hts
            | false => rfl
          rw [List.filterMap_cons]
          cases hie : (sortByDate (subRows st t)).isEmpty with
          | true => simp only [hie, if_true]; exact ih h
          | false => simp only [hie, if_false, List.lookup, hst]; exact ih h

theorem batchFill_preserves (period : String) (today : Nat) (ms : List String) :
    ∀ (F : Fetcher) (acc : List (String × TaggedTable)) (n : Nat)
      (out : List (String × TaggedTable) × Fetcher × Nat),
      batchFill period today F ms acc n = .ok out →
      ∀ (s : String) (v : TaggedTable), acc.lookup s = some v → out.1.lookup s = some v := by
  induction ms with
  | nil =>
      intro F acc n out hout s v hs
      rw [batchFill] at hout
      cases hout
      exact hs
  | cons t ts ih =>
      intro F acc n out hout s v hs
      rw [batchFill] at hout
      cases hr : (DataFetcher.fetch_ohlcv F t period true today).res with
      | error e => rw [hr] at hout; exact absurd hout (by simp)
      | ok df =>
          rw [hr] at hout
          exact ih _ _ _ _ hout s v (lookup_append_some _ _ _ _ hs)

theorem add_asset_ok (st : Store) (t : String) (hro : st.readOnly = false)
    (hready : st.schemaReady = true) :
    ∃ al, DuckDBProvider.add_asset st t "" "" "" = .ok { st with assets := al } := by
  rw [DuckDBProvider.add_asset, if_neg (by rw [hro, hready]; simp)]
  exact ⟨_, rfl⟩

theorem save_ohlcv_state (st : Store) (t : String) (df : List Bar)
    (hro : st.readOnly = false) (hready : st.schemaReady = true) (hdf : df ≠ []) :
    ∃ al, DuckDBProvider.save_ohlcv st t df =
      { st with assets := al
                market := df.foldl (fun tbl b => upsertMarket tbl (toRow t b)) st.market } := by
  obtain ⟨al, hal⟩ := add_asset_ok st t hro hready
  refine ⟨al, ?_⟩
  rw [DuckDBProvider.save_ohlcv, if_neg (by simp [isEmpty_false_of_ne_nil hdf]), hal]

theorem countP_upsert_key (tbl : List MarketRow) (r : MarketRow) :
    (upsertMarket tbl r).countP (fun x => x.ticker == r.ticker && x.date == r.date) = 1 := by
  rw [upsertMarket, List.countP_append]
  have h0 : (tbl.filter (fun x => !(x.ticker == r.ticker && x.date == r.date))).countP
      (fun x => x.ticker == r.ticker && x.date == r.date) = 0 := by
    rw [List.countP_eq_zero]
    intro a ha
    have := (List.mem_filter.mp ha).2
    simp only [Bool.not_eq_true'] at this
    simp [this]
  rw [h0]
  simp [List.countP_cons]

theorem mem_ensureTable (ts : List String) (n m : String) (h : m ∈ ts) :
    m ∈ ensureTable ts n := by
  rw [ensureTable]
  split
  · exact h
  · exact List.mem_append_left _ h

theorem foldl_ensureTable_mem (names : List String) :
    ∀ (ts : List String) (m : String), m ∈ ts → m ∈ names.foldl ensureTable ts := by
  induction names with
  | nil => intro ts m h; exact h
  | cons n tl ih => intro ts m h; exact ih _ m (mem_ensureTable ts n m h)

theorem names_mem_foldl_ensureTable (names : List String) :
    ∀ (ts : List String) (n : String), n ∈ names → n ∈ names.foldl ensureTable ts := by
  induction names with
  | nil => intro ts n h; exact absurd h (List.not_mem_nil n)
  | cons m tl ih =>
      intro ts n h
      rcases List.mem_cons.mp h with h | h
      · subst h
        refine foldl_ensureTable_mem tl _ n ?_
        rw [ensureTable]
        split
        · assumption
        · exact List.mem_append_right _ (List.mem_singleton_self n)
      · exact ih _ n h

theorem foldl_ensureTable_of_subset (names : List String) :
    ∀ (ts : List String), (∀ n ∈ names, n ∈ ts) → names.foldl ensureTable ts = ts := by
  induction names with
  | nil => intro ts _; rfl
  | cons n tl ih =>
      intro ts h
      have hn : n ∈ ts := h n (List.mem_cons_self n tl)
      rw [List.foldl_cons, ensureTable, if_pos hn]
      exact ih ts (fun m hm => h m (List.mem_cons_of_mem n hm))

theorem applyDDL_idem (sc : Schema) : applyDDL (applyDDL sc) = applyDDL sc := by
  rw [applyDDL, applyDDL]
  simp only [Schema.mk.injEq, and_true]
  exact foldl_ensureTable_of_subset schemaTables _
    (fun n hn => names_mem_foldl_ensureTable schemaTables sc.tables n hn)

/-!
Claim theorems.
-/

/-- C3: the claim says `resolve` (DataFetcher.fetch_ohlcv) never propagates an
exception and degrades every store/provider failure to a fallback tier or an
empty result.  The code violates this: the effective
`DuckDBProvider.fetch_ohlcv` has no `except` clause, and the orchestrator
calls it outside any `try` in the DB-first tier of the prefer-store strategy
(and in the DB-fallback tier of the prefer-live strategy), so a store error —
here, a database whose `fact_market_data` table was never created — reaches
the caller as an exception. -/
theorem C3_store_error_propagates :
    DuckDBProvider.fetch_ohlcv st3 "AAPL" "1y" = .error () ∧
    (DataFetcher.fetch_ohlcv F3 "AAPL" "1y" true 100).res = .error () :=
  ⟨rfl, rfl⟩

/-- C4: when a writable connection is requested while none exists and the
write lock is contended, `DBManager.get_connection` returns a usable
read-only cursor instead of raising, records read-only both on
`_CONNECTION_READ_ONLY` and on the instance `read_only` flag, and logs the
downgrade warning. -/
theorem C4_lock_contention_downgrade (g : DBManagerState) (h : g.shared = none) :
    DBManager.get_connection true false g =
      ⟨true, true, { g with shared := some true, connectionReadOnly := true },
       ["⚠️ DB Locked. Falling back to Read-Only Mode."]⟩ := by
  rw [DBManager.get_connection]
  simp [h]

/-- Witness for C4 at a concrete empty manager state. -/
theorem C4_lock_contention_downgrade_witness :
    DBManager.get_connection true false ⟨none, false, false⟩ =
      ⟨true, true, ⟨some true, true, false⟩,
       ["⚠️ DB Locked. Falling back to Read-Only Mode."]⟩ :=
  C4_lock_contention_downgrade ⟨none, false, false⟩ rfl

/-- C6: upserting the same (symbol, date) bar twice through
`DuckDBProvider.save_ohlcv` leaves exactly one `fact_market_data` row for
that key, and that row carries the values of the second call. -/
theorem C6_upsert_same_key_once (st : Store) (t : String) (b b2 : Bar)
    (hro : st.readOnly = false) (hready : st.schemaReady = true) (hd : b2.date = b.date) :
    (DuckDBProvider.save_ohlcv (DuckDBProvider.save_ohlcv st t [b]) t [b2]).market.countP
        (fun x => x.ticker == t && x.date == b.date) = 1 ∧
      toRow t b2 ∈ (DuckDBProvider.save_ohlcv (DuckDBProvider.save_ohlcv st t [b]) t [b2]).market := by
  obtain ⟨al1, h1⟩ := save_ohlcv_state st t [b] hro hready (by simp)
  obtain ⟨al2, h2⟩ := save_ohlcv_state (DuckDBProvider.save_ohlcv st t [b]) t [b2]
      (by rw [h1]; exact hro) (by rw [h1]; exact hready) (by simp)
  rw [h2, h1]
  constructor
  · have hc := countP_upsert_key (upsertMarket st.market (toRow t b)) (toRow t b2)
    simpa [toRow, hd] using hc
  · simp [upsertMarket]

/-- Witness for C6: two writes of the "A"/day-100 bar on a concrete store. -/
theorem C6_upsert_same_key_once_witness :
    (DuckDBProvider.save_ohlcv (DuckDBProvider.save_ohlcv st6w "A"
        [⟨100, 1, 2, 3, 4, 5⟩]) "A" [⟨100, 6, 7, 8, 9, 10⟩]).market.countP
        (fun x => x.ticker == "A" && x.date == 100) = 1 ∧
      toRow "A" ⟨100, 6, 7, 8, 9, 10⟩ ∈ (DuckDBProvider.save_ohlcv
        (DuckDBProvider.save_ohlcv st6w "A" [⟨100, 1, 2, 3, 4, 5⟩]) "A"
        [⟨100, 6, 7, 8, 9, 10⟩]).market :=
  C6_upsert_same_key_once st6w "A" ⟨100, 1, 2, 3, 4, 5⟩ ⟨100, 6, 7, 8, 9, 10⟩ rfl rfl rfl

set_option maxRecDepth 10000 in
/-- C7: the claim says every symbol interpolated into the batch `IN (...)`
clause is validated (alphanumeric + limited punctuation).  The code violates
this: `fetch_batch_ohlcv` splices each symbol into the query text with no
validation or escaping, so a symbol rejected by the spec validator appears
verbatim (quotes included) in the constructed query. -/
theorem C7_unvalidated_interpolation :
    specValidSymbol injSym = false ∧
    List.IsInfix injSym.data (DuckDBProvider.batchQueryText ["AAPL", injSym]).data := by
  constructor
  · decide
  · decide

/-- C8: the claim says every write operation on a read-only session is a safe
logged no-op that never raises.  Five of the six are (their bodies catch the
write error and leave the store unchanged), but `DuckDBProvider.add_asset`
has `try/finally` with no `except` and raises the read-only write error to
its caller. -/
theorem C8_read_only_writes :
    DuckDBProvider.add_asset st8 "AAPL" "" "" "" = .error () ∧
    DuckDBProvider.save_ohlcv st8 "AAPL" [⟨100, 1, 1, 1, 1, 1⟩] = st8 ∧
    DuckDBProvider.save_news st8 "AAPL" [⟨"t", "p", "l", 0, 0⟩] = st8 ∧
    DuckDBProvider.save_fundamentals st8 "AAPL" 100 1 2 3 = st8 ∧
    DuckDBProvider.save_alt_data st8 "AAPL" 100 0 0 = st8 ∧
    DBManager.update_asset_origin st8 "AAPL" "RBRS" = st8 :=
  ⟨rfl, rfl, rfl, rfl, rfl, rfl⟩

/-- C10: for every bounded window label, the single-symbol store query is
anchored at the symbol's latest stored date, not at today: it returns (in
date order) exactly the stored rows of the symbol with
`date >= MAX(date) - window`, and the result is non-empty whenever any row
exists — today does not occur in the computation at all, so a symbol whose
history ends long in the past still yields a full window of stale rows. -/
theorem C10_window_anchored_at_latest (st : Store) (t p : String)
    (hp : p ∈ ["1mo", "3mo", "6mo", "1y", "2y", "5y"])
    (hready : st.schemaReady = true) (hne : subRows st t ≠ []) :
    DuckDBProvider.fetch_ohlcv st t p = .ok (storeWindowRows st t p) ∧
    storeWindowRows st t p ≠ [] ∧
    List.Perm (storeWindowRows st t p)
      ((st.market.filter (fun r => r.ticker == t &&
          decide (maxD (subRows st t) ≤ r.date + periodDays p))).map toBar) := by
  refine ⟨by rw [DuckDBProvider.fetch_ohlcv, if_pos hready],
          storeWindowRows_ne_nil st t p hne, ?_⟩
  have heq : (subRows st t).filter
        (fun r => decide (maxD (subRows st t) ≤ r.date + periodDays p))
      = st.market.filter (fun r => r.ticker == t &&
          decide (maxD (subRows st t) ≤ r.date + periodDays p)) := by
    conv_lhs => rw [subRows]
    rw [List.filter_filter]
    congr 1
    funext r
    exact Bool.and_comm _ _
  simp only [storeWindowRows]
  rw [heq, sortByDate]
  exact (List.perm_insertionSort _ _).map toBar

/-- Witness for C10 on a store whose "A" history ends at day 1000: the 1y
window is anchored there and returns the day-900 and day-1000 rows. -/
theorem C10_window_anchored_at_latest_witness :
    DuckDBProvider.fetch_ohlcv st10w "A" "1y" = .ok (storeWindowRows st10w "A" "1y") ∧
    storeWindowRows st10w "A" "1y" ≠ [] ∧
    List.Perm (storeWindowRows st10w "A" "1y")
      ((st10w.market.filter (fun r => r.ticker == "A" &&
          decide (maxD (subRows st10w "A") ≤ r.date + periodDays "1y"))).map toBar) :=
  C10_window_anchored_at_latest st10w "A" "1y" (by decide) rfl (by decide)

/-- C1 counterexample: the claim quantifies only over the store state, but
the freshness check reads the in-process `date_cache` memo first.  With the
store latest date at day 100 (= today) and a stale memo entry of day 90, the
prefer-live path judges the symbol stale and invokes the live provider
(one call, result tagged live), contradicting the claimed zero provider
calls and cache tag. -/
theorem C1_counterexample :
    DuckDBProvider.get_latest_date st1c "A" = some 100 ∧ 100 ≤ 100 + 1 ∧
    (DataFetcher.fetch_ohlcv F1c "A" "2y" true 100).calls = 1 ∧
    (DataFetcher.fetch_ohlcv F1c "A" "2y" true 100).res =
      .ok ⟨[⟨100, 2, 2, 2, 2, 2⟩], some "🟢 LIVE"⟩ :=
  ⟨rfl, Nat.le_succ 100, rfl, rfl⟩

/-- C1 (amended): in the prefer-live strategy with the store enabled, IF the
in-process date memo holds no stale entry for the symbol (it is absent or
agrees with the store), and the store's latest date is today or yesterday
(`today ≤ d + 1`), then `resolve` returns the store's window, tagged
`"🟠 CACHE (DB)"`, with zero provider invocations. -/
theorem C1_fresh_store_short_circuits (F : Fetcher) (st : Store) (ticker period : String)
    (today d : Nat) (u : Bool)
    (hstrat : F.strategy = .LIVE)
    (hdb : F.db = some st)
    (hmemo : F.date_cache.lookup ticker = none ∨
             F.date_cache.lookup ticker = DuckDBProvider.get_latest_date st ticker)
    (hlatest : DuckDBProvider.get_latest_date st ticker = some d)
    (hfresh : today ≤ d + 1)
    (hbounded : period ≠ "max") :
    DataFetcher.fetch_ohlcv F ticker period u today =
      ⟨.ok ⟨storeWindowRows st ticker period, some "🟠 CACHE (DB)"⟩, 0, F.db⟩ := by
  obtain ⟨hready, hne, hd⟩ := get_latest_date_some st ticker d hlatest
  have hrows : (storeWindowRows st ticker period).isEmpty = false :=
    isEmpty_false_of_ne_nil (storeWindowRows_ne_nil st ticker period hne)
  have hsmart : smartCheck F st false ticker period today =
      some ⟨storeWindowRows st ticker period, some "🟠 CACHE (DB)"⟩ := by
    rcases hmemo with h | h
    · simp [smartCheck, h, hlatest, hfresh, DuckDBProvider.fetch_ohlcv, hready, hrows,
            cacheTag]
    · simp [smartCheck, h, hlatest, hfresh, DuckDBProvider.fetch_ohlcv, hready, hrows,
            cacheTag]
  rw [DataFetcher.fetch_ohlcv, hstrat]
  simp [livePath, hdb, hsmart]

/-- Witness for C1 (amended) with an empty memo, store latest day 100,
today day 101. -/
theorem C1_fresh_store_short_circuits_witness :
    DataFetcher.fetch_ohlcv F1w "A" "1y" true 101 =
      ⟨.ok ⟨storeWindowRows st1c "A" "1y", some "🟠 CACHE (DB)"⟩, 0, some st1c⟩ :=
  C1_fresh_store_short_circuits F1w st1c "A" "1y" 101 100 true rfl rfl (Or.inl rfl) rfl
    (by decide) (by decide)

/-- C5 counterexample: the claim says a symbol with any stored data is always
treated as fresh for `window = "max"`.  In the prefer-live strategy the
freshness rule has no special case for `"max"`: with the only stored bar ten
days old, `resolve(S, "max")` invokes the live provider and refetches full
history (one call, tagged live) despite data existing in the store. -/
theorem C5_counterexample :
    DuckDBProvider.get_latest_date st5c "A" = some 90 ∧
    (DataFetcher.fetch_ohlcv F5c "A" "max" true 100).calls = 1 ∧
    (DataFetcher.fetch_ohlcv F5c "A" "max" true 100).res =
      .ok ⟨[⟨100, 2, 2, 2, 2, 2⟩], some "🟢 LIVE"⟩ :=
  ⟨rfl, rfl, rfl⟩

/-- C5 (amended): under the prefer-store strategy, once any data exists for
the symbol, `resolve(S, "max")` serves from the store with zero provider
invocations (so full history is never refetched); under prefer-live the
`"max"` window is subject to the same one-day staleness rule as bounded
windows and stale history IS refetched (see the counterexample). -/
theorem C5_max_prefer_store (F : Fetcher) (st : Store) (ticker : String) (u : Bool)
    (today : Nat)
    (hstrat : F.strategy = .SYNTHETIC) (hdb : F.db = some st)
    (hready : st.schemaReady = true) (hne : subRows st ticker ≠ []) :
    DataFetcher.fetch_ohlcv F ticker "max" u today =
      ⟨.ok ⟨storeWindowRows st ticker "max", some "🟠 CACHE (DB)"⟩, 0, F.db⟩ := by
  have hrows : (storeWindowRows st ticker "max").isEmpty = false :=
    isEmpty_false_of_ne_nil (storeWindowRows_ne_nil st ticker "max" hne)
  rw [DataFetcher.fetch_ohlcv, hstrat]
  simp [synthPath, hdb, DuckDBProvider.fetch_ohlcv, hready, hrows]

/-- Witness for C5 (amended) on the store holding one ten-day-old "A" bar. -/
theorem C5_max_prefer_store_witness :
    DataFetcher.fetch_ohlcv F5w "A" "max" true 100 =
      ⟨.ok ⟨storeWindowRows st5c "A" "max", some "🟠 CACHE (DB)"⟩, 0, some st5c⟩ :=
  C5_max_prefer_store F5w st5c "A" true 100 rfl rfl rfl (by decide)

/-- C2 counterexample: the batch store query applies no window filter (its
computed `start_date` is unused), so for a symbol whose stored history is
longer than the window the batch result differs from the single-symbol path:
with bars at days 100 and 1000 and a 2y window, the single-symbol query
returns one row but the batch returns both. -/
theorem C2_counterexample :
    (match DataFetcher.fetch_batch_ohlcv F2c ["A"] "2y" 1100 with
     | .ok x => x.1.lookup "A"
     | .error _ => none) ≠
      (DataFetcher.fetch_ohlcv F2c "A" "2y" true 1100).res.toOption := by
  decide

/-- C2 (amended): the two paths agree only for symbols absent from the store:
a symbol with any stored rows is answered from the batch query with its
complete stored history (no window filter) tagged `"🟠 CACHE (DB Batch)"`,
while a symbol with no stored rows is routed through the single-symbol
orchestrator and its entry equals that path's result. -/
theorem C2_batch_contract (F : Fetcher) (st : Store) (p : String) (today : Nat) :
    (∀ (tickers : List String) (s : String)
        (out : List (String × TaggedTable) × Fetcher × Nat),
        F.db = some st → st.schemaReady = true → s ∈ tickers → subRows st s ≠ [] →
        DataFetcher.fetch_batch_ohlcv F tickers p today = .ok out →
        out.1.lookup s =
          some ⟨(sortByDate (subRows st s)).map toBar, some "🟠 CACHE (DB Batch)"⟩) ∧
    (∀ (s : String) (df : TaggedTable),
        F.db = some st → st.schemaReady = true → subRows st s = [] →
        (DataFetcher.fetch_ohlcv F s p true today).res = .ok df →
        DataFetcher.fetch_batch_ohlcv F [s] p today =
          .ok ([(s, df)], { F with db := (DataFetcher.fetch_ohlcv F s p true today).db },
               (DataFetcher.fetch_ohlcv F s p true today).calls)) := by
  constructor
  · intro tickers s out hdb hready hmem hne hout
    have hticks : tickers.isEmpty = false :=
      isEmpty_false_of_ne_nil (List.ne_nil_of_mem hmem)
    have hbatch : DuckDBProvider.fetch_batch_ohlcv st tickers p today
        = tickers.filterMap (fun t =>
            if (sortByDate (subRows st t)).isEmpty then none
            else some (t, sortByDate (subRows st t))) := by
      rw [DuckDBProvider.fetch_batch_ohlcv]
      simp [hticks, hready]
    have hres : ((DuckDBProvider.fetch_batch_ohlcv st tickers p today).map
        (fun e => (e.1, (⟨e.2.map toBar, some "🟠 CACHE (DB Batch)"⟩ : TaggedTable)))).lookup s
        = some ⟨(sortByDate (subRows st s)).map toBar, some "🟠 CACHE (DB Batch)"⟩ := by
      rw [lookup_map_value (DuckDBProvider.fetch_batch_ohlcv st tickers p today)
            (fun v => (⟨v.map toBar, some "🟠 CACHE (DB Batch)"⟩ : TaggedTable)) s]
      rw [hbatch, lookup_batch_present st tickers s hmem hne]
      rfl
    rw [DataFetcher.fetch_batch_ohlcv] at hout
    rw [hdb] at hout
    exact batchFill_preserves p today _ F _ 0 out hout s _ hres
  · intro s df hdb hready hsub hres
    have hnil : sortByDate (subRows st s) = [] := by rw [hsub]; rfl
    have hb : DuckDBProvider.fetch_batch_ohlcv st [s] p today = [] := by
      rw [DuckDBProvider.fetch_batch_ohlcv]
      simp [hready, hnil]
    rw [DataFetcher.fetch_batch_ohlcv, hdb]
    simp [hb, batchFill, hres]

/-- Witness for C2 (amended): on a store holding only "A", conjunct 1 at the
batch output for `["A"]` and conjunct 2 for the absent symbol "B". -/
theorem C2_batch_contract_witness :
    (([("A", (⟨[⟨100, 1, 1, 1, 1, 1⟩], some "🟠 CACHE (DB Batch)"⟩ : TaggedTable))],
        F2w, 0) : List (String × TaggedTable) × Fetcher × Nat).1.lookup "A" =
      some ⟨(sortByDate (subRows st2w "A")).map toBar, some "🟠 CACHE (DB Batch)"⟩ ∧
    DataFetcher.fetch_batch_ohlcv F2w ["B"] "1y" 0 =
      .ok ([("B", emptyDF)],
           { F2w with db := (DataFetcher.fetch_ohlcv F2w "B" "1y" true 0).db },
           (DataFetcher.fetch_ohlcv F2w "B" "1y" true 0).calls) :=
  ⟨(C2_batch_contract F2w st2w "1y" 0).1 ["A"] "A"
      ([("A", ⟨[⟨100, 1, 1, 1, 1, 1⟩], some "🟠 CACHE (DB Batch)"⟩)], F2w, 0)
      rfl rfl (List.mem_singleton_self "A") (by decide) rfl,
   (C2_batch_contract F2w st2w "1y" 0).2 "B" emptyDF rfl rfl rfl rfl⟩

/-- C9: the schema initializer is idempotent (tables created only if absent,
column-exists failures of the additive alters swallowed); once the
process-level flag is set a later construction runs nothing; a read-only
construction skips silently without raising; and a successful writable,
uncontended construction applies the DDL once and sets the flag. -/
theorem C9_schema_init_contract :
    (∀ sc : Schema, applyDDL (applyDDL sc) = applyDDL sc) ∧
    (∀ (g : DBManagerState) (sc : Schema) (locked ro : Bool),
        g.schemaFlagSet = true → DBManager.mk ro locked g sc = ⟨g, sc, ro, []⟩) ∧
    (∀ (g : DBManagerState) (sc : Schema) (locked : Bool),
        DBManager.mk true locked g sc = ⟨g, sc, true, []⟩) ∧
    (∀ (g : DBManagerState) (sc : Schema),
        g.schemaFlagSet = false → g.shared = none →
        DBManager.mk false false g sc =
          ⟨{ g with shared := some false, connectionReadOnly := false, schemaFlagSet := true },
           applyDDL sc, false, []⟩) := by
  refine ⟨applyDDL_idem, ?_, ?_, ?_⟩
  · intro g sc locked ro hflag
    simp [DBManager.mk, hflag]
  · intro g sc locked
    simp [DBManager.mk]
  · intro g sc hflag hshared
    simp [DBManager.mk, DBManager.init_db, DBManager.get_connection, hflag, hshared]

/-- Witness for C9 at concrete states: an empty schema, a locked manager with
the flag already set, a read-only construction, and a first writable
construction. -/
theorem C9_schema_init_contract_witness :
    applyDDL (applyDDL ⟨[], false, false⟩) = applyDDL ⟨[], false, false⟩ ∧
    DBManager.mk false true ⟨some false, false, true⟩ ⟨[], false, false⟩ =
      ⟨⟨some false, false, true⟩, ⟨[], false, false⟩, false, []⟩ ∧
    DBManager.mk true true ⟨none, false, false⟩ ⟨[], false, false⟩ =
      ⟨⟨none, false, false⟩, ⟨[], false, false⟩, true, []⟩ ∧
    DBManager.mk false false ⟨none, false, false⟩ ⟨[], false, false⟩ =
      ⟨⟨some false, false, true⟩, applyDDL ⟨[], false, false⟩, false, []⟩ :=
  ⟨C9_schema_init_contract.1 ⟨[], false, false⟩,
   C9_schema_init_contract.2.1 ⟨some false, false, true⟩ ⟨[], false, false⟩ true false rfl,
   C9_schema_init_contract.2.2.1 ⟨none, false, false⟩ ⟨[], false, false⟩ true,
   C9_schema_init_contract.2.2.2 ⟨none, false, false⟩ ⟨[], false, false⟩ rfl rfl⟩
